import Mathlib

/-!
Shallow embedding of `src/app.py` (AgriScan sugarcane disease dashboard).

The app's logic core is embedded as executable Lean definitions:
* the treatment dictionary `TREATMENT_INFO` and the label list `class_names`
  (app.py lines 53-81);
* the inference step `predicted_class = class_names[np.argmax(predictions)]`,
  `confidence = np.max(predictions)` (lines 152-154), with `np.max` and
  `np.argmax` modelled over rational vectors by `npMax` / `npArgmax`
  (numpy's documented semantics: maximum value, and first index attaining it);
* the preprocessing pipeline `ImageOps.fit(image, (224,224), LANCZOS)`,
  `np.array`, `np.expand_dims(-, 0) / 255.0` (lines 148-150);
* the session log updates (lines 160-162) and the Reports page CSV export
  (lines 190-196).
-/

namespace Sugarcane

/-- One value of the treatment dictionary: the three recommendation strings
stored under the keys "Traditional", "Chemical", "Organic" (app.py 53-79). -/
structure TreatmentEntry where
  traditional : String
  chemical : String
  organic : String
deriving DecidableEq

/-- The `TREATMENT_INFO` dict of app.py lines 53-79, as an association list in
the source's key insertion order. -/
def TREATMENT_INFO : List (String × TreatmentEntry) :=
  [ ("RedRot",
      { traditional := "Crop rotation with rice. Remove and burn infected clumps immediately.",
        chemical := "Dip setts in 0.1% Carbendazim solution for 15 mins before planting.",
        organic := "Soil application of Trichoderma viride (Bio-fungicide) mixed with compost." }),
    ("Mosaic",
      { traditional := "Use disease-free seed setts. Remove weeds that host aphids.",
        chemical := "Spray Malathion (0.1%) or Dimethoate to control aphid vectors.",
        organic := "Spray Neem Oil (2%) to repel aphids naturally." }),
    ("Rust",
      { traditional := "Avoid excess nitrogen fertilizer. Ensure proper field drainage.",
        chemical := "Spray Mancozeb (0.2%) or Propiconazole (0.1%) at 15-day intervals.",
        organic := "Foliar spray of Verticillium lecanii (a fungus that eats rust spores)." }),
    ("Yellow",
      { traditional := "Use hot water treated seed setts (50°C for 2 hours).",
        chemical := "Apply Imidacloprid to control the insect vectors spreading the disease.",
        organic := "Apply balanced organic manure to boost plant immunity." }),
    ("Healthy",
      { traditional := "Continue standard irrigation and monitoring.",
        chemical := "No chemical action needed.",
        organic := "Maintain soil health with vermicompost." }) ]

/-- `class_names = ['Healthy', 'Mosaic', 'RedRot', 'Rust', 'Yellow']`
(app.py line 81). -/
def class_names : List String := ["Healthy", "Mosaic", "RedRot", "Rust", "Yellow"]

/-- Python dict lookup `TREATMENT_INFO[label]` as an optional value: the first
entry whose key is `label` (dict keys are unique, so "first" is "the"). -/
def lookupTreatment (label : String) : Option TreatmentEntry :=
  (TREATMENT_INFO.find? fun p => p.1 == label).map Prod.snd

/-- `np.max` of a vector, modelled over ℚ: the maximum element (junk value 0 on
the empty vector, which numpy rejects). Used at app.py line 154. -/
def npMax : List ℚ → ℚ
  | [] => 0
  | [x] => x
  | x :: y :: rest => max x (npMax (y :: rest))

/-- `np.argmax` of a vector, modelled over ℚ: the index of the first occurrence
of the maximum value (numpy documents first-occurrence tie-breaking).
Used at app.py line 153. -/
def npArgmax : List ℚ → ℕ
  | [] => 0
  | [_] => 0
  | x :: y :: rest =>
      if x < npMax (y :: rest) then npArgmax (y :: rest) + 1 else 0

/-- The inference step of app.py lines 152-154 applied to the probability
vector returned by the model's forward pass:
`predicted_class = class_names[np.argmax(predictions)]` and
`confidence = np.max(predictions)`. -/
def infer (ps : List ℚ) : String × ℚ :=
  (class_names.getD (npArgmax ps) "", npMax ps)

/-- One entry of `st.session_state['recent_scans']`: the dict
`{'Date': today, 'Location': 'Live', 'Status': predicted_class}` built at
app.py line 162. -/
structure ScanRecord where
  date : String
  location : String
  status : String
deriving DecidableEq

/-- The session-scoped state of app.py lines 47-50:
`st.session_state['total_scans']` and `st.session_state['recent_scans']`. -/
structure SessionState where
  total_scans : ℕ
  recent_scans : List ScanRecord
deriving DecidableEq

/-- The initial session state of app.py lines 47-50: counter 0, empty log. -/
def initState : SessionState := { total_scans := 0, recent_scans := [] }

/-- The logging step of app.py lines 160-162:
`st.session_state['total_scans'] += 1` and
`st.session_state['recent_scans'].insert(0, scan)` (insertion at the head). -/
def record (s : SessionState) (r : ScanRecord) : SessionState :=
  { total_scans := s.total_scans + 1, recent_scans := r :: s.recent_scans }

/-- `record` iterated over a list of scans, in the order they occur. -/
def recordAll (s : SessionState) (rs : List ScanRecord) : SessionState :=
  rs.foldl record s

/-- A CSV field as pandas `to_csv` writes it with default minimal quoting:
quoted (with inner quotes doubled) only when it contains a delimiter, a quote
or a line break. -/
def csvField (s : String) : String :=
  if s.contains ',' || s.contains '"' || s.contains '\n' || s.contains '\r' then
    "\"" ++ (s.replace "\"" "\"\"") ++ "\""
  else s

/-- One CSV data row for a scan record: the Date, Location and Status cells
joined by commas, as `pd.DataFrame(recent_scans).to_csv(index=False)` emits
for one list element (app.py line 193). -/
def csvRow (r : ScanRecord) : String :=
  csvField r.date ++ "," ++ csvField r.location ++ "," ++ csvField r.status

/-- The lines of the CSV produced at app.py line 193: the header
`Date,Location,Status` (the dict-key column order) followed by one data row
per record, in the log's current order. -/
def csvLines (log : List ScanRecord) : List String :=
  "Date,Location,Status" :: log.map csvRow

/-- `df.to_csv(index=False)` (app.py line 193): every line, header first,
terminated by a newline. -/
def toCsv (log : List ScanRecord) : String :=
  String.join ((csvLines log).map fun ln => ln ++ "\n")

/-- The downloadable file offered by `st.download_button` at app.py line 194:
a file name and its byte content. -/
structure DownloadBlob where
  filename : String
  content : ByteArray

/-- What the Reports page renders (app.py lines 190-196): either the table of
scans plus the CSV download, or the "No data available." warning. -/
inductive ReportView where
  | table (rows : List ScanRecord) (blob : DownloadBlob)
  | noData

/-- The Reports page action (app.py lines 188-196). It reads
`st.session_state['recent_scans']`; when non-empty it renders the table and
offers `df.to_csv(index=False).encode('utf-8')` as `report.csv`; otherwise it
shows a warning. It writes nothing back to the session state, which the
returned state makes explicit. -/
def reportsAction (s : SessionState) : SessionState × ReportView :=
  if s.recent_scans.length > 0 then
    (s, ReportView.table s.recent_scans
      { filename := "report.csv", content := (toCsv s.recent_scans).toUTF8 })
  else
    (s, ReportView.noData)

/-- Whole-process state: the module-level `model = load_model()` value
(app.py line 44, `None` when download or load failed) together with the
session state. The forward pass on the current preprocessed image is modelled
by the probability vector it returns, so a loaded model is carried as that
vector. -/
structure ProcessState where
  model : Option (List ℚ)
  session : SessionState

/-- The outcome the Live Analysis page shows for one scan attempt. -/
inductive ScanOutcome where
  | modelUnavailable
  | ok (label : String) (confidence : ℚ)

/-- One press of the scan button (app.py lines 136-162). With `model is None`
the page only shows the error message (line 138): no inference, no logging.
Otherwise it runs inference (lines 152-154) and logs the scan (lines 160-162).
`load_model` is never re-invoked here: the cached line-44 value is read. -/
def scanAction (p : ProcessState) (today : String) : ProcessState × ScanOutcome :=
  match p.model with
  | none => (p, ScanOutcome.modelUnavailable)
  | some ps =>
      let label := (infer ps).1
      ({ model := p.model,
         session := record p.session { date := today, location := "Live", status := label } },
       ScanOutcome.ok label (infer ps).2)

/-- What the Live Analysis page renders below the result (app.py lines
174-185): the three treatment columns when `predicted_class in TREATMENT_INFO`,
and nothing at all otherwise (there is no else branch). -/
inductive TreatmentView where
  | shown (e : TreatmentEntry)
  | absent
deriving DecidableEq

/-- The guarded treatment display of app.py lines 174-185. -/
def treatmentSection (predicted : String) : TreatmentView :=
  match lookupTreatment predicted with
  | some e => TreatmentView.shown e
  | none => TreatmentView.absent

/-- The crop box `ImageOps.fit(image, (224, 224), LANCZOS)` resamples from
(PIL's formula for a square target with default centering (0.5, 0.5)): the
largest centered square of the w×h input. Coordinates are exact rationals,
as PIL passes the float box to `Image.resize`. -/
structure CropBox where
  left : ℚ
  top : ℚ
  right : ℚ
  bottom : ℚ

/-- PIL `ImageOps.fit` crop-box computation for target size (224, 224):
when width/height ≥ 1 the crop is h×h centered horizontally, else w×w
centered vertically (app.py line 148). -/
def fitBox (w h : ℕ) : CropBox :=
  if (w : ℚ) / (h : ℚ) ≥ 1 then
    { left := ((w : ℚ) - (h : ℚ)) / 2, top := 0,
      right := ((w : ℚ) - (h : ℚ)) / 2 + (h : ℚ), bottom := (h : ℚ) }
  else
    { left := 0, top := ((h : ℚ) - (w : ℚ)) / 2,
      right := (w : ℚ), bottom := ((h : ℚ) - (w : ℚ)) / 2 + (w : ℚ) }

/-- The value pipeline of app.py lines 148-150 for a 3-channel input: the
fitted image is a 224×224 uint8 RGB raster (`ImageOps.fit` returns the
requested size in the input's mode), `np.array` keeps its values, and
`np.expand_dims(-, axis=0) / 255.0` prepends the batch axis and divides every
channel value by 255. The result type is the (1, 224, 224, 3) tensor. -/
def preprocess (img : Fin 224 → Fin 224 → Fin 3 → Fin 256) :
    Fin 1 → Fin 224 → Fin 224 → Fin 3 → ℚ :=
  fun _ i j c => ((img i j c).val : ℚ) / 255

/-- The PIL modes a decoded JPEG/PNG upload can have that matter here:
`Image.open` at app.py line 131 performs no mode conversion. -/
inductive PILMode where
  | L
  | RGB
  | RGBA
deriving DecidableEq

/-- Shape of `np.array(img_cropped)` for a fitted 224×224 image of each mode:
grayscale gives a 2-d array, RGB three channels, RGBA four (`ImageOps.fit`
preserves the mode; app.py line 149). -/
def npShapeOf : PILMode → List ℕ
  | PILMode.L => [224, 224]
  | PILMode.RGB => [224, 224, 3]
  | PILMode.RGBA => [224, 224, 4]

/-- `np.expand_dims(arr, axis=0)` on the shape level (app.py line 150). -/
def expandDims0 (shape : List ℕ) : List ℕ := 1 :: shape

/-- Shape of the tensor handed to `model.predict` (app.py lines 148-152) for
an upload decoded with the given mode. Lines 148-150 contain no mode check
and no error path: the pipeline is total and the division by 255.0 leaves the
shape unchanged. -/
def preprocessedShape (m : PILMode) : List ℕ := expandDims0 (npShapeOf m)

/-- A concrete three-scan log (most-recent-first), used to evaluate the
export path on the spec's three-record scenario. -/
def sampleLog : List ScanRecord :=
  [ { date := "2024-01-02", location := "Live", status := "Healthy" },
    { date := "2024-01-01", location := "Live", status := "RedRot" },
    { date := "2023-12-31", location := "Live", status := "Rust" } ]

/-- A concrete session state holding `sampleLog`. -/
def sampleState : SessionState := { total_scans := 3, recent_scans := sampleLog }

/-! ### Helper lemmas -/

theorem npMax_cons_cons (x y : ℚ) (rest : List ℚ) :
    npMax (x :: y :: rest) = max x (npMax (y :: rest)) := rfl

theorem npArgmax_cons_cons (x y : ℚ) (rest : List ℚ) :
    npArgmax (x :: y :: rest) =
      if x < npMax (y :: rest) then npArgmax (y :: rest) + 1 else 0 := rfl

theorem le_npMax {l : List ℚ} {a : ℚ} (ha : a ∈ l) : a ≤ npMax l := by
  induction l with
  | nil => cases ha
  | cons x xs ih =>
    cases xs with
    | nil =>
      rw [List.mem_singleton.mp ha]
      exact le_refl _
    | cons y rest =>
      rw [npMax_cons_cons]
      rcases List.mem_cons.mp ha with rfl | hmem
      · exact le_max_left _ _
      · exact le_trans (ih hmem) (le_max_right _ _)

theorem npMax_mem {l : List ℚ} (h : l ≠ []) : npMax l ∈ l := by
  induction l with
  | nil => exact absurd rfl h
  | cons x xs ih =>
    cases xs with
    | nil => exact List.mem_singleton.mpr rfl
    | cons y rest =>
      rw [npMax_cons_cons]
      rcases max_choice x (npMax (y :: rest)) with hc | hc
      · rw [hc]; exact List.mem_cons_self _ _
      · rw [hc]; exact List.mem_cons_of_mem _ (ih (by simp))

theorem npArgmax_lt_length {l : List ℚ} (h : l ≠ []) : npArgmax l < l.length := by
  induction l with
  | nil => exact absurd rfl h
  | cons x xs ih =>
    cases xs with
    | nil => exact Nat.zero_lt_one
    | cons y rest =>
      rw [npArgmax_cons_cons]
      by_cases hx : x < npMax (y :: rest)
      · rw [if_pos hx]
        exact Nat.succ_lt_succ (ih (by simp))
      · rw [if_neg hx]
        exact Nat.succ_pos _

theorem getD_npArgmax {l : List ℚ} (h : l ≠ []) : l.getD (npArgmax l) 0 = npMax l := by
  induction l with
  | nil => exact absurd rfl h
  | cons x xs ih =>
    cases xs with
    | nil => rfl
    | cons y rest =>
      rw [npArgmax_cons_cons, npMax_cons_cons]
      by_cases hx : x < npMax (y :: rest)
      · rw [if_pos hx, List.getD_cons_succ, ih (by simp), max_eq_right (le_of_lt hx)]
      · rw [if_neg hx, List.getD_cons_zero, max_eq_left (le_of_not_lt hx)]

theorem npArgmax_le {l : List ℚ} {j : ℕ} (hj : j < l.length)
    (hm : l.getD j 0 = npMax l) : npArgmax l ≤ j := by
  induction l generalizing j with
  | nil => exact absurd hj (by simp)
  | cons x xs ih =>
    cases xs with
    | nil => exact Nat.zero_le _
    | cons y rest =>
      rw [npArgmax_cons_cons]
      by_cases hx : x < npMax (y :: rest)
      · rw [if_pos hx]
        cases j with
        | zero =>
          exfalso
          rw [List.getD_cons_zero, npMax_cons_cons,
            max_eq_right (le_of_lt hx)] at hm
          exact absurd hm (ne_of_lt hx)
        | succ j' =>
          rw [List.getD_cons_succ, npMax_cons_cons,
            max_eq_right (le_of_lt hx)] at hm
          exact Nat.succ_le_succ (ih (Nat.lt_of_succ_lt_succ hj) hm)
      · rw [if_neg hx]
        exact Nat.zero_le _

theorem recordAll_cons (s : SessionState) (r : ScanRecord) (rs : List ScanRecord) :
    recordAll s (r :: rs) = recordAll (record s r) rs := rfl

theorem recordAll_spec (s : SessionState) (rs : List ScanRecord) :
    (recordAll s rs).total_scans = s.total_scans + rs.length ∧
    (recordAll s rs).recent_scans = rs.reverse ++ s.recent_scans := by
  induction rs generalizing s with
  | nil => exact ⟨rfl, rfl⟩
  | cons r rs ih =>
    rw [recordAll_cons]
    obtain ⟨h1, h2⟩ := ih (record s r)
    constructor
    · rw [h1]
      simp [record]
      omega
    · rw [h2]
      simp [record]

theorem reportsAction_fst (s : SessionState) : (reportsAction s).1 = s := by
  unfold reportsAction
  split <;> rfl

/-! ### Claim theorems -/

/-- Claim C1: for every probability vector of length 5, the inference step
returns the label `class_names[np.argmax(...)]` — the `ClassLabel` under the
fixed ordering [Healthy, Mosaic, RedRot, Rust, Yellow] at an in-range argmax
index — and its confidence is the maximum value of the vector (every entry is
bounded by it, and the entry at the argmax index attains it); in particular
[0.05, 0.05, 0.8, 0.05, 0.05] yields label RedRot with confidence 0.8. -/
theorem infer_argmax_spec (ps : List ℚ) (h5 : ps.length = 5)
    (a : ℚ) (ha : a ∈ ps) :
    npArgmax ps < 5 ∧
    (infer ps).1 = class_names.getD (npArgmax ps) "" ∧
    ps.getD (npArgmax ps) 0 = (infer ps).2 ∧
    a ≤ (infer ps).2 ∧
    infer [0.05, 0.05, 0.8, 0.05, 0.05] = ("RedRot", 0.8) := by
  have hne : ps ≠ [] := by
    intro e
    rw [e] at h5
    exact absurd h5 (by decide)
  refine ⟨h5 ▸ npArgmax_lt_length hne, rfl, getD_npArgmax hne, le_npMax ha, ?_⟩
  norm_num [infer, npArgmax, npMax, class_names]

/-- Claim C1 witness: the theorem applied to the concrete probability vector
[0.05, 0.05, 0.8, 0.05, 0.05] and its entry 0.8. -/
theorem infer_argmax_spec_w :
    npArgmax [(0.05 : ℚ), 0.05, 0.8, 0.05, 0.05] < 5 ∧
    (infer [(0.05 : ℚ), 0.05, 0.8, 0.05, 0.05]).1 =
      class_names.getD (npArgmax [(0.05 : ℚ), 0.05, 0.8, 0.05, 0.05]) "" ∧
    [(0.05 : ℚ), 0.05, 0.8, 0.05, 0.05].getD
      (npArgmax [(0.05 : ℚ), 0.05, 0.8, 0.05, 0.05]) 0 =
      (infer [(0.05 : ℚ), 0.05, 0.8, 0.05, 0.05]).2 ∧
    (0.8 : ℚ) ≤ (infer [(0.05 : ℚ), 0.05, 0.8, 0.05, 0.05]).2 ∧
    infer [0.05, 0.05, 0.8, 0.05, 0.05] = ("RedRot", 0.8) :=
  infer_argmax_spec [0.05, 0.05, 0.8, 0.05, 0.05] (by decide) 0.8 (by norm_num)

/-- Claim C10: when the maximum occurs at more than one index, `np.argmax`
tie-breaks by first occurrence: any index attaining the maximum is an upper
bound for the selected index; concretely the tied vector
[0.3, 0.3, 0.2, 0.1, 0.1] yields the smallest tied index 0, label Healthy. -/
theorem argmax_first_occurrence (ps : List ℚ) (j : ℕ) (hj : j < ps.length)
    (hm : ps.getD j 0 = npMax ps) :
    npArgmax ps ≤ j ∧
    infer [0.3, 0.3, 0.2, 0.1, 0.1] = ("Healthy", 0.3) := by
  exact ⟨npArgmax_le hj hm, by norm_num [infer, npArgmax, npMax, class_names]⟩

/-- Claim C10 witness: the theorem applied to the tied vector
[0.3, 0.3, 0.2, 0.1, 0.1] at the tied index 1. -/
theorem argmax_first_occurrence_w :
    npArgmax [(0.3 : ℚ), 0.3, 0.2, 0.1, 0.1] ≤ 1 ∧
    infer [0.3, 0.3, 0.2, 0.1, 0.1] = ("Healthy", 0.3) :=
  argmax_first_occurrence [0.3, 0.3, 0.2, 0.1, 0.1] 1 (by decide) (by norm_num [npMax])

/-- Claim C3: starting from the initial session state (counter 0, empty log),
recording N scans leaves `total_scans = N`, a log of length N equal to the
reversed insertion sequence (most-recent-first), whose head is the most
recently recorded scan. -/
theorem session_log_spec (rs : List ScanRecord) :
    (recordAll initState rs).total_scans = rs.length ∧
    (recordAll initState rs).recent_scans.length = rs.length ∧
    (recordAll initState rs).recent_scans = rs.reverse ∧
    (recordAll initState rs).recent_scans.head? = rs.getLast? := by
  obtain ⟨h1, h2⟩ := recordAll_spec initState rs
  have e1 : initState.total_scans = 0 := rfl
  have e2 : initState.recent_scans = [] := rfl
  rw [e1] at h1
  rw [e2, List.append_nil] at h2
  refine ⟨by rw [h1, Nat.zero_add], by rw [h2]; simp, h2, ?_⟩
  rw [h2]
  exact List.head?_reverse rs

/-- Claim C4: on a non-empty log, the Reports page leaves the state unchanged
in its first component and offers the CSV as a download named `report.csv`,
UTF-8 encoded; the CSV has the header line `Date,Location,Status` followed by
exactly one data row per scan record, in the log's current
(most-recent-first) order: line i+1 is the row for record i. -/
theorem export_csv_spec (s : SessionState) (h : s.recent_scans ≠ [])
    (i : ℕ) (hi : i < s.recent_scans.length) :
    (reportsAction s).2 = ReportView.table s.recent_scans
      { filename := "report.csv", content := (toCsv s.recent_scans).toUTF8 } ∧
    (csvLines s.recent_scans).length = s.recent_scans.length + 1 ∧
    (csvLines s.recent_scans).getD 0 "" = "Date,Location,Status" ∧
    (csvLines s.recent_scans).getD (i + 1) "" =
      csvRow (s.recent_scans.getD i { date := "", location := "", status := "" }) := by
  refine ⟨?_, by simp [csvLines], rfl, ?_⟩
  · unfold reportsAction
    rw [if_pos (List.length_pos.mpr h)]
  · rw [csvLines, List.getD_cons_succ,
      List.getD_eq_getElem _ "" (by simpa using hi),
      List.getD_eq_getElem _ _ hi, List.getElem_map]

/-- Claim C4 witness: the theorem applied to the concrete three-record state
`sampleState` at row index 0. -/
theorem export_csv_spec_w :
    (reportsAction sampleState).2 = ReportView.table sampleState.recent_scans
      { filename := "report.csv",
        content := (toCsv sampleState.recent_scans).toUTF8 } ∧
    (csvLines sampleState.recent_scans).length =
      sampleState.recent_scans.length + 1 ∧
    (csvLines sampleState.recent_scans).getD 0 "" = "Date,Location,Status" ∧
    (csvLines sampleState.recent_scans).getD (0 + 1) "" =
      csvRow (sampleState.recent_scans.getD 0
        { date := "", location := "", status := "" }) :=
  export_csv_spec sampleState (by decide) 0 (by decide)

/-- Claim C5: every one of the five class names has exactly one entry in
`TREATMENT_INFO`, the dict lookup succeeds on it, and the three recommendation
strings of the found entry are non-empty. -/
theorem catalog_total (l : String) (hl : l ∈ class_names) :
    (TREATMENT_INFO.filter fun p => p.1 == l).length = 1 ∧
    (lookupTreatment l).isSome = true ∧
    ((lookupTreatment l).getD
      { traditional := "", chemical := "", organic := "" }).traditional ≠ "" ∧
    ((lookupTreatment l).getD
      { traditional := "", chemical := "", organic := "" }).chemical ≠ "" ∧
    ((lookupTreatment l).getD
      { traditional := "", chemical := "", organic := "" }).organic ≠ "" := by
  fin_cases hl <;> exact ⟨by decide, by decide, by decide, by decide, by decide⟩

/-- Claim C5 witness: the theorem applied to the class name RedRot. -/
theorem catalog_total_w :
    (TREATMENT_INFO.filter fun p => p.1 == "RedRot").length = 1 ∧
    (lookupTreatment "RedRot").isSome = true ∧
    ((lookupTreatment "RedRot").getD
      { traditional := "", chemical := "", organic := "" }).traditional ≠ "" ∧
    ((lookupTreatment "RedRot").getD
      { traditional := "", chemical := "", organic := "" }).chemical ≠ "" ∧
    ((lookupTreatment "RedRot").getD
      { traditional := "", chemical := "", organic := "" }).organic ≠ "" :=
  catalog_total "RedRot" (by decide)

/-- Claim C7: when the module-level model is `None` (load failed at process
start), pressing the scan button only surfaces the unavailability message:
the whole process state — model handle (no reload attempt) and session state
(counter and log) — is returned unchanged. -/
theorem scan_model_unavailable (p : ProcessState) (today : String)
    (h : p.model = none) :
    scanAction p today = (p, ScanOutcome.modelUnavailable) := by
  obtain ⟨m, sess⟩ := p
  cases h
  rfl

/-- Claim C7 witness: the theorem applied to the failed-load process state
with the initial session. -/
theorem scan_model_unavailable_w :
    scanAction { model := none, session := initState } "2024-01-01" =
      ({ model := none, session := initState }, ScanOutcome.modelUnavailable) :=
  scan_model_unavailable { model := none, session := initState } "2024-01-01" rfl

/-- Claim C8 counterexample: for the label "Smut", which has no entry in
`TREATMENT_INFO`, the dict lookup of app.py line 175 is guarded by the
membership test of line 174, and the page silently renders no treatment
section — no `MissingCatalogEntryError` (or any failure) exists on this
path, contradicting the claim that lookup fails rather than defaulting
silently. -/
theorem treatment_missing_counterexample :
    lookupTreatment "Smut" = none ∧
    treatmentSection "Smut" = TreatmentView.absent := by
  exact ⟨by decide, by decide⟩

/-- Claim C8 (amended): for every predicted label with no entry in the
treatment dictionary, the guarded lookup of app.py lines 174-175 silently
omits the treatment section; no error of any kind is raised. -/
theorem treatment_missing_amended (l : String) (h : lookupTreatment l = none) :
    treatmentSection l = TreatmentView.absent := by
  unfold treatmentSection
  rw [h]

/-- Claim C8 witness: the amended theorem applied to the absent label
"Wilt". -/
theorem treatment_missing_amended_w :
    treatmentSection "Wilt" = TreatmentView.absent :=
  treatment_missing_amended "Wilt" (by decide)

/-- Claim C9: the Reports page export is a pure function of the session
state: the action returns the state unchanged, and running it twice in a row
(no intervening record) renders the identical view, in particular the
identical CSV bytes. -/
theorem export_pure (s : SessionState) :
    (reportsAction s).1 = s ∧
    (reportsAction ((reportsAction s).1)).2 = (reportsAction s).2 := by
  exact ⟨reportsAction_fst s, by rw [reportsAction_fst s]⟩

/-- Claim C2: for every positive input size, the `ImageOps.fit` crop box is
the largest centered square of the input — square (equal side lengths, both
`min w h`), centered (symmetric margins on both axes), and inside the image —
a content-preserving fit rather than a stretch; and for every fitted 3-channel
image (a 224×224 uint8 RGB raster) the tensor of type (1, 224, 224, 3) built
by `np.expand_dims(np.array(img), 0) / 255.0` has every channel value in
[0, 1]. -/
theorem preprocess_fit_spec (w h : ℕ) (_hw : 0 < w) (hh : 0 < h)
    (img : Fin 224 → Fin 224 → Fin 3 → Fin 256)
    (b : Fin 1) (i j : Fin 224) (c : Fin 3) :
    (fitBox w h).right - (fitBox w h).left = min (w : ℚ) (h : ℚ) ∧
    (fitBox w h).bottom - (fitBox w h).top = min (w : ℚ) (h : ℚ) ∧
    (fitBox w h).left + (fitBox w h).right = (w : ℚ) ∧
    (fitBox w h).top + (fitBox w h).bottom = (h : ℚ) ∧
    0 ≤ (fitBox w h).left ∧ (fitBox w h).right ≤ (w : ℚ) ∧
    0 ≤ (fitBox w h).top ∧ (fitBox w h).bottom ≤ (h : ℚ) ∧
    0 ≤ preprocess img b i j c ∧ preprocess img b i j c ≤ 1 := by
  have hhq : (0 : ℚ) < (h : ℚ) := by exact_mod_cast hh
  have hval : ((img i j c).val : ℚ) ≤ 255 := by
    have hlt : (img i j c).val ≤ 255 := Nat.lt_succ_iff.mp (img i j c).isLt
    exact_mod_cast hlt
  have hpre1 : 0 ≤ preprocess img b i j c :=
    div_nonneg (Nat.cast_nonneg _) (by norm_num)
  have hpre2 : preprocess img b i j c ≤ 1 := (div_le_one (by norm_num)).mpr hval
  rcases le_or_lt (h : ℚ) (w : ℚ) with hq | hq
  · have hfb : fitBox w h =
        { left := ((w : ℚ) - (h : ℚ)) / 2, top := 0,
          right := ((w : ℚ) - (h : ℚ)) / 2 + (h : ℚ), bottom := (h : ℚ) } := by
      unfold fitBox
      rw [if_pos ((one_le_div hhq).mpr hq)]
    rw [hfb, min_eq_right hq]
    refine ⟨by ring, by ring, by ring, by ring, by dsimp only; linarith,
      by dsimp only; linarith, le_refl _, le_refl _, hpre1, hpre2⟩
  · have hfb : fitBox w h =
        { left := 0, top := ((h : ℚ) - (w : ℚ)) / 2,
          right := (w : ℚ), bottom := ((h : ℚ) - (w : ℚ)) / 2 + (w : ℚ) } := by
      unfold fitBox
      rw [if_neg fun hc => absurd ((one_le_div hhq).mp hc) (not_le.mpr hq)]
    rw [hfb, min_eq_left (le_of_lt hq)]
    refine ⟨by ring, by ring, by ring, by ring, le_refl _, le_refl _,
      by dsimp only; linarith, by dsimp only; linarith, hpre1, hpre2⟩

/-- Claim C2 witness: the theorem applied to a 640×480 input and the all-zero
fitted raster at batch index 0, pixel (0, 0), channel 0. -/
theorem preprocess_fit_spec_w :
    (fitBox 640 480).right - (fitBox 640 480).left =
      min ((640 : ℕ) : ℚ) ((480 : ℕ) : ℚ) ∧
    (fitBox 640 480).bottom - (fitBox 640 480).top =
      min ((640 : ℕ) : ℚ) ((480 : ℕ) : ℚ) ∧
    (fitBox 640 480).left + (fitBox 640 480).right = ((640 : ℕ) : ℚ) ∧
    (fitBox 640 480).top + (fitBox 640 480).bottom = ((480 : ℕ) : ℚ) ∧
    0 ≤ (fitBox 640 480).left ∧ (fitBox 640 480).right ≤ ((640 : ℕ) : ℚ) ∧
    0 ≤ (fitBox 640 480).top ∧ (fitBox 640 480).bottom ≤ ((480 : ℕ) : ℚ) ∧
    0 ≤ preprocess (fun _ _ _ => 0) 0 0 0 0 ∧
    preprocess (fun _ _ _ => 0) 0 0 0 0 ≤ 1 :=
  preprocess_fit_spec 640 480 (by decide) (by decide) (fun _ _ _ => 0) 0 0 0 0

/-- Claim C6 (the code at the failing input): an upload that decodes in RGBA
mode (a PNG with an alpha channel, an accepted upload type) passes through
lines 148-150 of app.py with no error and no mode check, producing the
wrongly shaped tensor (1, 224, 224, 4) rather than failing, while a 3-channel
upload gives (1, 224, 224, 3). -/
theorem rgba_no_format_check :
    preprocessedShape PILMode.RGBA = [1, 224, 224, 4] ∧
    preprocessedShape PILMode.RGBA ≠ [1, 224, 224, 3] ∧
    preprocessedShape PILMode.RGB = [1, 224, 224, 3] := by
  exact ⟨rfl, by decide, rfl⟩

end Sugarcane
